/-
Verification development for the dVE repository.

This file gives a shallow embedding of the verification-record core of the
repository: the mock KERI identity manager (src/unnamed/part_012), the mock
blockchain ledger (src/blockchain/mock/MockBlockchain.js, together with the
record model src/blockchain/models/VerificationRecord.js), the verification
engine (the VerificationEngine class in src/unnamed/part_003) and the
validation service value checks (the first ValidationService class in
src/unnamed/part_004).

Modelling conventions:
- JavaScript `Map` objects become association lists over `String` keys, with
  `mapGet` / `mapSet` mirroring `Map.get` / `Map.set` (set replaces the entry
  for an existing key in place, otherwise appends).
- `async` methods that throw become functions into `Except String`; methods
  that mutate `this` additionally return the updated state.
- Sources of nondeterminism in the code (crypto.randomBytes for fresh keys and
  ids, Math.random draws, Date timestamps) become explicit input parameters,
  so each function is a pure function of its inputs.
- The SHA-256 digest is modelled by an abstract function `hash : String →
  String`; `crypto.createHash(..).update(a).update(b).digest(..)` hashes the
  concatenation of its inputs, so it is embedded as `hash (a ++ b)`.
  Claims that need collision-freeness take injectivity of `hash` as a
  hypothesis.
- Data passed to sign/verify is taken to already be its canonical string
  serialization (the code stringifies objects with JSON.stringify before use).
-/
import Mathlib

namespace DVE

/-! ## Association-list model of JavaScript `Map` -/

/-- `Map.get k`: value of the first entry with key `k`, if any. -/
def mapGet {α : Type} (m : List (String × α)) (k : String) : Option α :=
  match m with
  | [] => none
  | p :: rest => if p.1 = k then some p.2 else mapGet rest k

/-- `Map.set k v`: replace the entry for `k` in place, or append a new one. -/
def mapSet {α : Type} (m : List (String × α)) (k : String) (v : α) :
    List (String × α) :=
  match m with
  | [] => [(k, v)]
  | p :: rest => if p.1 = k then (k, v) :: rest else p :: mapSet rest k v

theorem mapGet_mapSet_self {α : Type} (m : List (String × α)) (k : String)
    (v : α) : mapGet (mapSet m k v) k = some v := by
  induction m with
  | nil => simp [mapGet, mapSet]
  | cons p rest ih =>
      by_cases h : p.1 = k
      · simp [mapGet, mapSet, h]
      · simp [mapGet, mapSet, h, ih]

theorem mapGet_mapSet_ne {α : Type} (m : List (String × α)) {k k' : String}
    (v : α) (h : k' ≠ k) : mapGet (mapSet m k v) k' = mapGet m k' := by
  have h2 : ¬ k = k' := fun he => h he.symm
  induction m with
  | nil => simp [mapGet, mapSet, h2]
  | cons p rest ih =>
      by_cases hp : p.1 = k
      · subst hp
        simp [mapGet, mapSet, h2]
      · simp [mapGet, mapSet, hp, ih]

/-! ## Mock KERI identity manager (src/unnamed/part_012) -/

namespace MockKeri

/-- A public/private key pair, as generated by `generateKeyPair`. -/
structure KeyPair where
  publicKey : String
  privateKey : String
  deriving Repr, DecidableEq

/-- Entry of `this.keyPairs`: the key-pair set for one identifier. -/
structure KeyPairInfo where
  id : String
  current : KeyPair
  next : KeyPair
  previous : Option KeyPair := none
  created : String := ""
  algorithm : String := "Ed25519"
  status : String := "Active"
  lastRotated : Option String := none
  deriving Repr, DecidableEq

/-- The free-form `metadata` object of an identifier, restricted to the keys
the code reads or writes (`implementErasure` deletes `personalData` and
`contactInfo` and sets `erasureCompleted`). -/
structure IdMetadata where
  personalData : Option String := none
  contactInfo : Option String := none
  erasureCompleted : Bool := false
  deriving Repr, DecidableEq

/-- Entry of `this.identifiers`. -/
structure Identifier where
  id : String
  keyPairId : String
  controller : String := "unknown"
  created : String := ""
  status : String := "Active"
  metadata : IdMetadata := {}
  erasedAt : Option String := none
  deriving Repr, DecidableEq

/-- Payload of an event-log entry, by event type. -/
inductive EventData where
  | inception (publicKey nextPublicKey : String)
  | rotation (previousPublicKey currentPublicKey nextPublicKey : String)
  | signature (keyId dataHash : String)
  | erasure (reason : String)
  deriving Repr, DecidableEq

/-- One entry of an identifier event log. The `data.identifierId` field of the
code is the log key itself and is dropped; the remaining payload is `data`. -/
structure KeriEvent where
  type : String
  timestamp : String
  data : EventData
  deriving Repr, DecidableEq

/-- The mutable state of the `MockKeri` singleton. -/
structure KeriState where
  initialized : Bool
  keyPairs : List (String × KeyPairInfo)
  identifiers : List (String × Identifier)
  eventLogs : List (String × List KeriEvent)
  deriving Repr, DecidableEq

/-- Result object of `sign`. -/
structure SignatureResult where
  identifierId : String
  keyId : String
  timestamp : String
  signature : String
  deriving Repr, DecidableEq

/-- Result object of `rotateKeys`. -/
structure RotationResult where
  identifierId : String
  rotated : Bool
  timestamp : String
  currentPublicKey : String
  nextPublicKey : String
  deriving Repr, DecidableEq

/-- Result object of `implementErasure`. -/
structure ErasureResult where
  identifierId : String
  status : String
  timestamp : String
  success : Bool
  deriving Repr, DecidableEq

/-- `MockKeri.rotateKeys(identifierId)`. The freshly generated next key pair
(crypto.randomBytes in the code) is the explicit parameter `fresh`; the
timestamp is `now`. -/
def rotateKeys (fresh : KeyPair) (now : String) (st : KeriState)
    (identifierId : String) : Except String (RotationResult × KeriState) :=
  if !st.initialized then
    Except.error "KERI not initialized"
  else
    match mapGet st.identifiers identifierId with
    | none => Except.error ("Identifier " ++ identifierId ++ " not found")
    | some identifier =>
      match mapGet st.keyPairs identifier.keyPairId with
      | none => Except.error ("Key pair " ++ identifier.keyPairId ++ " not found")
      | some keyPairInfo =>
        let previousKeyPair := keyPairInfo.current
        let currentKeyPair := keyPairInfo.next
        let nextKeyPair := fresh
        let keyPairInfo1 : KeyPairInfo :=
          { keyPairInfo with
            previous := some previousKeyPair
            current := currentKeyPair
            next := nextKeyPair
            lastRotated := some now }
        let eventLog := (mapGet st.eventLogs identifierId).getD []
        let eventLog1 := eventLog ++
          [{ type := "rotation", timestamp := now
             data := EventData.rotation previousKeyPair.publicKey
               currentKeyPair.publicKey nextKeyPair.publicKey }]
        Except.ok
          ({ identifierId := identifierId
             rotated := true
             timestamp := now
             currentPublicKey := currentKeyPair.publicKey
             nextPublicKey := nextKeyPair.publicKey },
           { st with
             keyPairs := mapSet st.keyPairs identifier.keyPairId keyPairInfo1
             eventLogs := mapSet st.eventLogs identifierId eventLog1 })

/-- `MockKeri.sign(identifierId, data)`. `dataStr` is the canonical string
serialization of the data; `hash` models the SHA-256 hex digest. The
signature is `sig_` followed by the digest of the data concatenated with the
current private key. Note: the code performs no check of `identifier.status`. -/
def sign (hash : String → String) (now : String) (st : KeriState)
    (identifierId : String) (dataStr : String) :
    Except String (SignatureResult × KeriState) :=
  if !st.initialized then
    Except.error "KERI not initialized"
  else
    match mapGet st.identifiers identifierId with
    | none => Except.error ("Identifier " ++ identifierId ++ " not found")
    | some identifier =>
      match mapGet st.keyPairs identifier.keyPairId with
      | none => Except.error ("Key pair " ++ identifier.keyPairId ++ " not found")
      | some keyPairInfo =>
        let signature : SignatureResult :=
          { identifierId := identifierId
            keyId := keyPairInfo.id
            timestamp := now
            signature := "sig_" ++ hash (dataStr ++ keyPairInfo.current.privateKey) }
        let eventLog := (mapGet st.eventLogs identifierId).getD []
        let eventLog1 := eventLog ++
          [{ type := "signature", timestamp := now
             data := EventData.signature keyPairInfo.id (hash dataStr) }]
        Except.ok
          (signature,
           { st with eventLogs := mapSet st.eventLogs identifierId eventLog1 })

/-- `MockKeri.verify(identifierId, data, signature)`: recomputes the expected
signature from the current key material of the identifier and compares. -/
def verify (hash : String → String) (st : KeriState) (identifierId : String)
    (dataStr : String) (signature : String) : Except String Bool :=
  if !st.initialized then
    Except.error "KERI not initialized"
  else
    match mapGet st.identifiers identifierId with
    | none => Except.error ("Identifier " ++ identifierId ++ " not found")
    | some identifier =>
      match mapGet st.keyPairs identifier.keyPairId with
      | none => Except.error ("Key pair " ++ identifier.keyPairId ++ " not found")
      | some keyPairInfo =>
        let expectedSignature :=
          "sig_" ++ hash (dataStr ++ keyPairInfo.current.privateKey)
        Except.ok (signature == expectedSignature)

/-- `MockKeri.implementErasure(identifierId)`: appends an `erasure` event,
marks the identifier `Erased` and strips the personal metadata keys. -/
def implementErasure (now : String) (st : KeriState) (identifierId : String) :
    Except String (ErasureResult × KeriState) :=
  if !st.initialized then
    Except.error "KERI not initialized"
  else
    match mapGet st.identifiers identifierId with
    | none => Except.error ("Identifier " ++ identifierId ++ " not found")
    | some identifier =>
      let erasureEvent : KeriEvent :=
        { type := "erasure", timestamp := now
          data := EventData.erasure "GDPR compliance" }
      let eventLog := (mapGet st.eventLogs identifierId).getD []
      let identifier1 : Identifier :=
        { identifier with
          status := "Erased"
          erasedAt := some now
          metadata :=
            { identifier.metadata with
              personalData := none
              contactInfo := none
              erasureCompleted := true } }
      Except.ok
        ({ identifierId := identifierId, status := "Erased"
           timestamp := now, success := true },
         { st with
           identifiers := mapSet st.identifiers identifierId identifier1
           eventLogs := mapSet st.eventLogs identifierId (eventLog ++ [erasureEvent]) })

/-- Number of events of a given type in an identifier event log. -/
def eventCount (st : KeriState) (identifierId : String) (ty : String) : Nat :=
  ((mapGet st.eventLogs identifierId).getD []).countP (fun e => e.type == ty)

/-- `rotateKeys` iterated once per key pair in `freshes`. -/
def rotateKeysN (now : String) (freshes : List KeyPair) (st : KeriState)
    (identifierId : String) : Except String KeriState :=
  match freshes with
  | [] => Except.ok st
  | f :: fs =>
    match rotateKeys f now st identifierId with
    | Except.error e => Except.error e
    | Except.ok (_, st1) => rotateKeysN now fs st1 identifierId

end MockKeri

/-! ## Mock blockchain ledger (src/blockchain/mock/MockBlockchain.js and
src/blockchain/models/VerificationRecord.js) -/

namespace MockBlockchain

/-- The fields of `VerificationRecord` that the ledger code reads (its
`isValid()` structural check and the `recordId` storage key). JavaScript
truthiness of a string field is modelled as being nonempty. -/
structure BVerificationRecord where
  recordId : String
  fileId : String
  version : String := ""
  timestamp : String
  validationStatus : String
  fileChecksum : String
  createdBy : String
  signature : Option String := none
  deriving Repr, DecidableEq

/-- `VerificationRecord.isValid()`: all six required fields truthy. -/
def BVerificationRecord.isValid (r : BVerificationRecord) : Bool :=
  !(r.recordId == "") && !(r.fileId == "") && !(r.timestamp == "") &&
  !(r.validationStatus == "") && !(r.fileChecksum == "") && !(r.createdBy == "")

/-- Entry of `this.transactions`. -/
structure BTransaction where
  txId : String
  type : String
  recordId : Option String := none
  timestamp : String
  status : String
  blockHeight : Nat
  confirmations : Nat
  deriving Repr, DecidableEq

/-- The mutable state of the `MockBlockchain` singleton (the `identities` map
is not involved in the claims about records and transactions and is omitted). -/
structure BlockchainState where
  initialized : Bool
  records : List (String × BVerificationRecord)
  transactions : List (String × BTransaction)
  deriving Repr, DecidableEq

/-- Result object of `storeVerificationRecord`. -/
structure StoreResult where
  success : Bool
  txId : String
  recordId : String
  timestamp : String
  blockHeight : Nat
  deriving Repr, DecidableEq

/-- `MockBlockchain.storeVerificationRecord(record)`. The generated
transaction id and the random block height are the explicit parameters `txId`
and `blockHeight`; the timestamp is `now`. Note: the code stores with
`this.records.set(recordId, record)` without checking whether `recordId` is
already present, so an existing record under the same id is silently
overwritten. -/
def storeVerificationRecord (txId : String) (blockHeight : Nat) (now : String)
    (st : BlockchainState) (r : BVerificationRecord) :
    Except String (StoreResult × BlockchainState) :=
  if !st.initialized then
    Except.error "Blockchain not initialized"
  else if !r.isValid then
    Except.error "Invalid verification record"
  else
    let transaction : BTransaction :=
      { txId := txId
        type := "StoreVerificationRecord"
        recordId := some r.recordId
        timestamp := now
        status := "Confirmed"
        blockHeight := blockHeight
        confirmations := 1 }
    Except.ok
      ({ success := true, txId := txId, recordId := r.recordId
         timestamp := now, blockHeight := blockHeight },
       { st with
         records := mapSet st.records r.recordId r
         transactions := mapSet st.transactions txId transaction })

/-- `MockBlockchain.getTransactionStatus(txId)`. The code adds
`Math.floor(Math.random() * 3)` (a value in {0, 1, 2}) to the stored
confirmation count and caps it at 12; the random draw is modelled by
`draw % 3` for an arbitrary `draw`. The updated transaction is stored back
and returned. -/
def getTransactionStatus (draw : Nat) (st : BlockchainState) (txId : String) :
    Except String (BTransaction × BlockchainState) :=
  if !st.initialized then
    Except.error "Blockchain not initialized"
  else
    match mapGet st.transactions txId with
    | none => Except.error ("Transaction with ID " ++ txId ++ " not found")
    | some transaction =>
      let transaction1 : BTransaction :=
        { transaction with
          confirmations := min (transaction.confirmations + draw % 3) 12 }
      Except.ok
        (transaction1,
         { st with transactions := mapSet st.transactions txId transaction1 })

end MockBlockchain

/-! ## Validation service value checks (first `ValidationService` class in
src/unnamed/part_004) -/

namespace ValidationService

/-- A JavaScript value, restricted to the shapes the validation predicates
inspect. -/
inductive JsValue where
  | vUndefined
  | vNull
  | vStr (s : String)
  | vNum (q : ℚ)
  | vBool (b : Bool)
  | vArr (elems : List JsValue)
  deriving Repr

/-- Whitespace for the purposes of `String.prototype.trim()` (the model covers
the ASCII whitespace characters). -/
def isWsChar (c : Char) : Bool :=
  c == ' ' || c == '\t' || c == '\n' || c == '\r'

/-- `String.prototype.trim()`: strip whitespace from both ends. -/
def jsTrim (s : String) : String :=
  String.mk (((s.data.dropWhile isWsChar).reverse.dropWhile isWsChar).reverse)

/-- `ValidationService._validateRange(value, parameters)`: non-numbers fail;
a present `min` is an inclusive lower bound and a present `max` an inclusive
upper bound. -/
def validateRange (value : JsValue) (min? max? : Option ℚ) : Bool :=
  match value with
  | JsValue.vNum q =>
    if (match min? with | some m => decide (q < m) | none => false) then false
    else if (match max? with | some m => decide (m < q) | none => false) then false
    else true
  | _ => false

/-- `ValidationService._validateRequired(value)`: `undefined`/`null` fail, a
string that trims to empty fails, an empty array fails, everything else
passes. -/
def validateRequired (value : JsValue) : Bool :=
  match value with
  | JsValue.vUndefined => false
  | JsValue.vNull => false
  | JsValue.vStr s => !(jsTrim s == "")
  | JsValue.vArr elems => !elems.isEmpty
  | _ => true

end ValidationService

/-! ## Verification engine (the `VerificationEngine` class in
src/unnamed/part_003) -/

namespace VerificationEngine

/-- A validation rule as read from the rule store (`ValidationRule.find`). -/
structure VRule where
  id : String
  name : String := ""
  ruleType : String
  targetField : String
  severity : String
  message : String := ""
  deriving Repr, DecidableEq

/-- Per-rule outcome as produced by `_applyValidationRule`. -/
structure RuleOutcome where
  ruleId : String
  result : String
  message : String
  deriving Repr, DecidableEq

/-- Aggregated result of `_validateFile`. -/
structure ValidationResults where
  isValid : Bool
  timestamp : String
  errors : List String
  warnings : List String
  ruleOutcomes : List RuleOutcome
  deriving Repr, DecidableEq

/-- The populated `mappingId` document of a file. -/
structure VMapping where
  schemaId : String
  columnMappings : List (String × String)
  deriving Repr, DecidableEq

/-- The fields of a `FileMetadata` document that `verifyFile` reads or
writes. `mapping` is the populated `mappingId` reference (`none` both when the
reference is absent and when it does not resolve). -/
structure VFileMetadata where
  fileId : String
  status : String
  mapping : Option VMapping := none
  validationResults : Option ValidationResults := none
  verificationRecordId : Option String := none
  blockchainTxId : Option String := none
  deriving Repr, DecidableEq

/-- `VerificationEngine._applyValidationRule(rule, fileMetadata, mapping)`.
The single `Math.random()` value the invocation may consume is the explicit
parameter `draw` (a rational in [0, 1)); the decimal thresholds of the code
are written as reduced rationals (for instance 0.2 as `mkRat 1 5`). Mirrors
the simulation switch of the code, including the unmapped-required-field
early return. -/
def applyValidationRule (cols : List (String × String)) (rule : VRule)
    (draw : ℚ) : RuleOutcome :=
  let sourceField := mapGet cols rule.targetField
  let sourceFalsy : Bool :=
    match sourceField with
    | none => true
    | some s => s == ""
  if sourceFalsy && (rule.ruleType == "required") then
    { ruleId := rule.id, result := "Fail"
      message := "Required field " ++ rule.targetField ++ " is not mapped" }
  else if rule.ruleType == "dataType" then
    { ruleId := rule.id, result := "Pass"
      message := "Data type validation passed for " ++ rule.targetField }
  else if rule.ruleType == "range" then
    if draw > mkRat 1 5 then
      { ruleId := rule.id, result := "Pass"
        message := "Range validation passed for " ++ rule.targetField }
    else
      { ruleId := rule.id, result := "Fail"
        message := "Value for " ++ rule.targetField ++ " is outside allowed range" }
  else if rule.ruleType == "required" then
    { ruleId := rule.id, result := "Pass"
      message := "Required field " ++ rule.targetField ++ " is present" }
  else if rule.ruleType == "uniqueness" then
    if draw > mkRat 1 10 then
      { ruleId := rule.id, result := "Pass"
        message := "Uniqueness validation passed for " ++ rule.targetField }
    else
      { ruleId := rule.id, result := "Fail"
        message := "Duplicate values found for " ++ rule.targetField }
  else if rule.ruleType == "pattern" then
    if draw > mkRat 3 20 then
      { ruleId := rule.id, result := "Pass"
        message := "Pattern validation passed for " ++ rule.targetField }
    else
      { ruleId := rule.id, result := "Fail"
        message := "Value for " ++ rule.targetField ++ " does not match required pattern" }
  else if rule.ruleType == "reference" then
    if draw > mkRat 1 20 then
      { ruleId := rule.id, result := "Pass"
        message := "Reference validation passed for " ++ rule.targetField }
    else
      { ruleId := rule.id, result := "Fail"
        message := "Value for " ++ rule.targetField ++ " does not match reference data" }
  else if rule.ruleType == "custom" then
    if draw > mkRat 1 4 then
      { ruleId := rule.id, result := "Pass"
        message := "Custom validation passed for " ++ rule.targetField }
    else
      { ruleId := rule.id, result := "Fail"
        message := "Custom validation failed for " ++ rule.targetField ++ ": " ++ rule.message }
  else
    { ruleId := rule.id, result := "NotApplicable"
      message := "Unknown rule type: " ++ rule.ruleType }

/-- `VerificationEngine._validateFile(fileMetadata, mapping, validationRules,
options)`: applies every rule (rule `i` consuming random draw `draws i`),
collects `Fail` messages into errors or warnings by severity, and reports
`isValid` iff the error list is empty. -/
def validateFile (now : String) (cols : List (String × String))
    (rules : List VRule) (draws : Nat → ℚ) : ValidationResults :=
  let pairs := rules.enum.map
    (fun p => (p.2, applyValidationRule cols p.2 (draws p.1)))
  let errors := pairs.filterMap
    (fun p => if p.2.result == "Fail" && p.1.severity == "error"
              then some p.2.message else none)
  let warnings := pairs.filterMap
    (fun p => if p.2.result == "Fail" && p.1.severity == "warning"
              then some p.2.message else none)
  { isValid := errors.isEmpty
    timestamp := now
    errors := errors
    warnings := warnings
    ruleOutcomes := pairs.map Prod.snd }

/-- What `verifyFile` needs of the result of `_createVerificationRecord`
(which persists a record, has it signed by the identity manager and submitted
to the ledger via the blockchain service, and returns it together with the
ledger transaction). -/
structure CreatedRecord where
  recordId : String
  txId : String
  deriving Repr, DecidableEq

/-- Overall outcome of a `verifyFile` call: the returned value or thrown
error, the file document as last saved (or as found when nothing was saved),
and the number of `_createVerificationRecord` invocations, i.e. of
sign-and-submit attempts against the ledger. -/
structure VerifyOutcome where
  result : Except String Bool
  file : Option VFileMetadata
  ledgerCalls : Nat
  deriving Repr

/-- `VerificationEngine.verifyFile(fileId, options)`. `file?` is the result
of the `FileMetadata.findOne` lookup; `rules` the active rules found for the
mapping schema; `draws` the `Math.random()` draws consumed by rule
simulation; `createRecord` the outcome of the `_createVerificationRecord`
call (an `Except.error` models an exception thrown while signing or while
submitting to the ledger); `createBlockchainRecord` models
`options.createBlockchainRecord !== false`. The `Bool` inside `result` is
the `success` flag of the returned object. -/
def verifyFile (engineInitialized : Bool) (now : String)
    (file? : Option VFileMetadata) (rules : List VRule) (draws : Nat → ℚ)
    (createRecord : Except String CreatedRecord)
    (createBlockchainRecord : Bool) : VerifyOutcome :=
  if !engineInitialized then
    { result := Except.error "Verification Engine not initialized"
      file := file?, ledgerCalls := 0 }
  else
    match file? with
    | none =>
      { result := Except.error "File not found", file := none, ledgerCalls := 0 }
    | some fileMetadata =>
      if !(fileMetadata.status == "mapped") then
        { result := Except.error
            ("File must be in mapped status to verify. Current status: "
              ++ fileMetadata.status)
          file := some fileMetadata, ledgerCalls := 0 }
      else
        match fileMetadata.mapping with
        | none =>
          { result := Except.error "File has no associated mapping"
            file := some fileMetadata, ledgerCalls := 0 }
        | some mapping =>
          let validationResults :=
            validateFile now mapping.columnMappings rules draws
          let fileMetadata1 : VFileMetadata :=
            { fileMetadata with
              validationResults := some validationResults
              status := if validationResults.isValid then "validated" else "error" }
          if validationResults.isValid && createBlockchainRecord then
            match createRecord with
            | Except.error e =>
              { result := Except.error e
                file := some fileMetadata1, ledgerCalls := 1 }
            | Except.ok created =>
              let fileMetadata2 : VFileMetadata :=
                { fileMetadata1 with
                  verificationRecordId := some created.recordId
                  blockchainTxId := some created.txId
                  status := "verified" }
              { result := Except.ok true
                file := some fileMetadata2, ledgerCalls := 1 }
          else
            { result := Except.ok true
              file := some fileMetadata1, ledgerCalls := 0 }

end VerificationEngine

/-! ## Supporting lemmas -/

theorem string_append_right_cancel {a b c : String} (h : a ++ c = b ++ c) :
    a = b := by
  have hd : a.data ++ c.data = b.data ++ c.data := by
    have := congrArg String.data h
    simpa using this
  have h2 := List.append_cancel_right hd
  cases a; cases b
  exact congrArg String.mk h2

theorem string_append_left_cancel {a b c : String} (h : a ++ b = a ++ c) :
    b = c := by
  have hd : a.data ++ b.data = a.data ++ c.data := by
    have := congrArg String.data h
    simpa using this
  have h2 := List.append_cancel_left hd
  cases b; cases c
  exact congrArg String.mk h2

/-- Mock signatures over different data differ, given a collision-free hash. -/
theorem sig_ne_of_data_ne {hash : String → String}
    (hinj : Function.Injective hash) {d1 d2 priv : String} (h : d1 ≠ d2) :
    "sig_" ++ hash (d1 ++ priv) ≠ "sig_" ++ hash (d2 ++ priv) :=
  fun he => h (string_append_right_cancel (hinj (string_append_left_cancel he)))

/-- Mock signatures under different private keys differ, given a
collision-free hash. -/
theorem sig_ne_of_priv_ne {hash : String → String}
    (hinj : Function.Injective hash) {d p1 p2 : String} (h : p1 ≠ p2) :
    "sig_" ++ hash (d ++ p1) ≠ "sig_" ++ hash (d ++ p2) :=
  fun he => h (string_append_left_cancel (hinj (string_append_left_cancel he)))

/-! ## Concrete fixtures used by witnesses and counterexamples -/

namespace Fixtures

open MockKeri

def kpA : KeyPair := { publicKey := "pubA", privateKey := "privA" }
def kpB : KeyPair := { publicKey := "pubB", privateKey := "privB" }
def kpC : KeyPair := { publicKey := "pubC", privateKey := "privC" }

def kpInfo1 : KeyPairInfo := { id := "key_1", current := kpA, next := kpB }

def ident1 : Identifier := { id := "did:keri:01", keyPairId := "key_1" }

/-- A KERI state with one active identifier owning `kpInfo1`. -/
def keriSt1 : KeriState :=
  { initialized := true
    keyPairs := [("key_1", kpInfo1)]
    identifiers := [("did:keri:01", ident1)]
    eventLogs := [("did:keri:01",
      [{ type := "inception", timestamp := "t0"
         data := EventData.inception "pubA" "pubB" }])] }

def dummySigRes : SignatureResult :=
  { identifierId := "", keyId := "", timestamp := "", signature := "" }

def dummyEraseRes : ErasureResult :=
  { identifierId := "", status := "", timestamp := "", success := false }

def dummyRotRes : RotationResult :=
  { identifierId := "", rotated := false, timestamp := ""
    currentPublicKey := "", nextPublicKey := "" }

/-- Result of signing `"data"` in `keriSt1` with the identity hash. -/
def afterSign : SignatureResult × KeriState :=
  match sign (fun s => s) "t1" keriSt1 "did:keri:01" "data" with
  | Except.ok p => p
  | Except.error _ => (dummySigRes, keriSt1)

/-- Result of rotating keys in the post-`afterSign` state. -/
def afterSignRot : RotationResult × KeriState :=
  match rotateKeys kpC "t2" afterSign.2 "did:keri:01" with
  | Except.ok p => p
  | Except.error _ => (dummyRotRes, keriSt1)

/-- Result of erasing the identifier of `keriSt1`. -/
def afterErase : ErasureResult × KeriState :=
  match implementErasure "t1" keriSt1 "did:keri:01" with
  | Except.ok p => p
  | Except.error _ => (dummyEraseRes, keriSt1)

/-- Result of signing after the erasure of `afterErase`. -/
def afterEraseSign : SignatureResult × KeriState :=
  match sign (fun s => s) "t2" afterErase.2 "did:keri:01" "data" with
  | Except.ok p => p
  | Except.error _ => (dummySigRes, keriSt1)

end Fixtures

/-! ## Claim C1: sign/verify roundtrip and tamper detection -/

open MockKeri in
/-- Claim C1: for an identifier known to the identity manager (with its key
pair present), signing data and verifying the unmodified data with the same
identifier against the post-sign state returns true, and verifying any datum
whose canonical serialization differs from the signed one returns false,
assuming the modelled hash is injective. -/
theorem c1_sign_verify_roundtrip (hash : String → String)
    (hinj : Function.Injective hash) (now : String) (st : KeriState)
    (iid dataStr : String) (idf : Identifier) (kp : KeyPairInfo)
    (hinit : st.initialized = true)
    (hid : mapGet st.identifiers iid = some idf)
    (hkp : mapGet st.keyPairs idf.keyPairId = some kp)
    (sres : SignatureResult) (st1 : KeriState)
    (hsign : sign hash now st iid dataStr = Except.ok (sres, st1)) :
    verify hash st1 iid dataStr sres.signature = Except.ok true ∧
    ∀ dataStr2, dataStr2 ≠ dataStr →
      verify hash st1 iid dataStr2 sres.signature = Except.ok false := by
  simp only [sign, hinit, Bool.not_true, Bool.false_eq_true, if_false, hid,
    hkp, Except.ok.injEq, Prod.mk.injEq] at hsign
  obtain ⟨hres, hst1⟩ := hsign
  subst hres
  subst hst1
  constructor
  · simp [verify, hinit, hid, hkp]
  · intro dataStr2 hne
    simp only [verify, hinit, Bool.not_true, Bool.false_eq_true, if_false,
      hid, hkp, Except.ok.injEq]
    rw [beq_eq_false_iff_ne]
    exact sig_ne_of_data_ne hinj (fun he => hne he.symm)

open MockKeri Fixtures in
/-- Witness for C1 at a concrete state: verifying the signed data succeeds
and verifying different data fails. -/
theorem c1_witness :
    verify (fun s => s) afterSign.2 "did:keri:01" "data" afterSign.1.signature
      = Except.ok true ∧
    verify (fun s => s) afterSign.2 "did:keri:01" "datb" afterSign.1.signature
      = Except.ok false := by
  have h := c1_sign_verify_roundtrip (fun s => s) (fun _ _ hh => hh) "t1"
    keriSt1 "did:keri:01" "data" ident1 kpInfo1 rfl rfl rfl
    afterSign.1 afterSign.2 rfl
  exact ⟨h.1, h.2 "datb" (by decide)⟩

/-! ## Claim C10: rotation invalidates earlier signatures -/

open MockKeri in
/-- Claim C10: a signature produced before a successful key rotation no
longer verifies afterwards, because `verify` recomputes the expected
signature from the current key material only. Hypotheses: the hash is
injective and the pre-rotation current and next private keys differ (both
are generated from independent random bytes in the code). -/
theorem c10_rotation_invalidates_signatures (hash : String → String)
    (hinj : Function.Injective hash) (now1 now2 : String) (st : KeriState)
    (iid dataStr : String) (idf : Identifier) (kp : KeyPairInfo)
    (fresh : KeyPair)
    (hinit : st.initialized = true)
    (hid : mapGet st.identifiers iid = some idf)
    (hkp : mapGet st.keyPairs idf.keyPairId = some kp)
    (hpriv : kp.current.privateKey ≠ kp.next.privateKey)
    (sres : SignatureResult) (st1 : KeriState)
    (hsign : sign hash now1 st iid dataStr = Except.ok (sres, st1))
    (rres : RotationResult) (st2 : KeriState)
    (hrot : rotateKeys fresh now2 st1 iid = Except.ok (rres, st2)) :
    verify hash st2 iid dataStr sres.signature = Except.ok false := by
  simp only [sign, hinit, Bool.not_true, Bool.false_eq_true, if_false, hid,
    hkp, Except.ok.injEq, Prod.mk.injEq] at hsign
  obtain ⟨hres, hst1⟩ := hsign
  subst hres
  subst hst1
  simp only [rotateKeys, hinit, Bool.not_true, Bool.false_eq_true, if_false,
    hid, hkp, Except.ok.injEq, Prod.mk.injEq] at hrot
  obtain ⟨_, hst2⟩ := hrot
  subst hst2
  simp only [verify, hinit, Bool.not_true, Bool.false_eq_true, if_false, hid,
    mapGet_mapSet_self, Except.ok.injEq]
  rw [beq_eq_false_iff_ne]
  exact sig_ne_of_priv_ne hinj hpriv

open MockKeri Fixtures in
/-- Witness for C10 at a concrete state: the pre-rotation signature verifies
as false after the rotation. -/
theorem c10_witness :
    verify (fun s => s) afterSignRot.2 "did:keri:01" "data"
      afterSign.1.signature = Except.ok false :=
  c10_rotation_invalidates_signatures (fun s => s) (fun _ _ hh => hh)
    "t1" "t2" keriSt1 "did:keri:01" "data" ident1 kpInfo1 kpC rfl rfl rfl
    (by decide) afterSign.1 afterSign.2 rfl afterSignRot.1 afterSignRot.2 rfl

/-! ## Rotation: supporting lemmas -/

open MockKeri in
/-- Evaluation of a successful `rotateKeys` call: the result object and the
updated state, spelled out. -/
theorem rotateKeys_ok (fresh : KeyPair) (now : String) (st : KeriState)
    (iid : String) (idf : Identifier) (kp : KeyPairInfo)
    (hinit : st.initialized = true)
    (hid : mapGet st.identifiers iid = some idf)
    (hkp : mapGet st.keyPairs idf.keyPairId = some kp) :
    rotateKeys fresh now st iid = Except.ok
      ({ identifierId := iid, rotated := true, timestamp := now
         currentPublicKey := kp.next.publicKey
         nextPublicKey := fresh.publicKey },
       { st with
         keyPairs := mapSet st.keyPairs idf.keyPairId
           { kp with
             previous := some kp.current
             current := kp.next
             next := fresh
             lastRotated := some now }
         eventLogs := mapSet st.eventLogs iid
           (((mapGet st.eventLogs iid).getD []) ++
            [{ type := "rotation", timestamp := now
               data := EventData.rotation kp.current.publicKey
                 kp.next.publicKey fresh.publicKey }]) }) := by
  simp [rotateKeys, hinit, hid, hkp]

open MockKeri in
/-- Appending one event of type `ty` to the log of `iid` raises the count of
events of that type by one. -/
theorem eventCount_append (st : KeriState) (iid ty : String) (ev : KeriEvent)
    (logs1 : List (String × List KeriEvent)) (hty : ev.type = ty)
    (hlogs : logs1 = mapSet st.eventLogs iid
      (((mapGet st.eventLogs iid).getD []) ++ [ev])) :
    eventCount { st with eventLogs := logs1 } iid ty
      = eventCount st iid ty + 1 := by
  subst hlogs
  simp [eventCount, mapGet_mapSet_self, List.countP_append, List.countP_cons, hty]

open MockKeri in
/-- Iterating `rotateKeys` succeeds from any state where the identifier and
its key pair resolve, and adds one `rotation` event per iteration. -/
theorem rotateKeysN_count (now : String) (iid : String) (idf : Identifier) :
    ∀ (freshes : List KeyPair) (st : KeriState) (kp : KeyPairInfo),
      st.initialized = true →
      mapGet st.identifiers iid = some idf →
      mapGet st.keyPairs idf.keyPairId = some kp →
      ∃ stN, rotateKeysN now freshes st iid = Except.ok stN ∧
        eventCount stN iid "rotation"
          = eventCount st iid "rotation" + freshes.length := by
  intro freshes
  induction freshes with
  | nil =>
      intro st kp _ _ _
      exact ⟨st, rfl, by simp⟩
  | cons f fs ih =>
      intro st kp hinit hid hkp
      have hrot := rotateKeys_ok f now st iid idf kp hinit hid hkp
      set st1 : KeriState :=
        { st with
          keyPairs := mapSet st.keyPairs idf.keyPairId
            { kp with
              previous := some kp.current
              current := kp.next
              next := f
              lastRotated := some now }
          eventLogs := mapSet st.eventLogs iid
            (((mapGet st.eventLogs iid).getD []) ++
             [{ type := "rotation", timestamp := now
                data := EventData.rotation kp.current.publicKey
                  kp.next.publicKey f.publicKey }]) } with hst1
      obtain ⟨stN, hN, hc⟩ := ih st1
        { kp with
          previous := some kp.current
          current := kp.next
          next := f
          lastRotated := some now }
        hinit hid (by simp [hst1, mapGet_mapSet_self])
      refine ⟨stN, ?_, ?_⟩
      · simp only [rotateKeysN, hrot]
        exact hN
      · have h1 : eventCount st1 iid "rotation"
            = eventCount st iid "rotation" + 1 := by
          exact eventCount_append st iid "rotation" _ _ rfl rfl
        rw [hc, h1, List.length_cons]
        omega

/-! ## Claim C6: N rotations give N rotation events with the pre-rotation
shift -/

open MockKeri in
/-- Claim C6: for an existing identifier (with its key pair present),
iterating `rotateKeys` once per fresh key pair in `freshes` appends exactly
`freshes.length` rotation events to the event log; and each single rotation
installs `previous := old current`, `current := old next`, `next := the
freshly generated pair`, appending one rotation event. -/
theorem c6_rotation_chain (now : String) (st : KeriState) (iid : String)
    (idf : Identifier) (kp : KeyPairInfo) (freshes : List KeyPair)
    (hinit : st.initialized = true)
    (hid : mapGet st.identifiers iid = some idf)
    (hkp : mapGet st.keyPairs idf.keyPairId = some kp) :
    (∃ stN, rotateKeysN now freshes st iid = Except.ok stN ∧
       eventCount stN iid "rotation"
         = eventCount st iid "rotation" + freshes.length) ∧
    (∀ (st1 : KeriState) (idf1 : Identifier) (kp1 : KeyPairInfo)
       (fresh : KeyPair) (now1 : String),
       st1.initialized = true →
       mapGet st1.identifiers iid = some idf1 →
       mapGet st1.keyPairs idf1.keyPairId = some kp1 →
       ∃ res st2, rotateKeys fresh now1 st1 iid = Except.ok (res, st2) ∧
         mapGet st2.keyPairs idf1.keyPairId = some
           { kp1 with
             previous := some kp1.current
             current := kp1.next
             next := fresh
             lastRotated := some now1 } ∧
         eventCount st2 iid "rotation" = eventCount st1 iid "rotation" + 1) := by
  constructor
  · exact rotateKeysN_count now iid idf freshes st kp hinit hid hkp
  · intro st1 idf1 kp1 fresh now1 hinit1 hid1 hkp1
    have hrot := rotateKeys_ok fresh now1 st1 iid idf1 kp1 hinit1 hid1 hkp1
    refine ⟨_, _, hrot, ?_, ?_⟩
    · simp [mapGet_mapSet_self]
    · exact eventCount_append st1 iid "rotation" _ _ rfl rfl

namespace Fixtures

open MockKeri

/-- State after two rotations of `keriSt1` with fresh pairs `kpC`, `kpA`. -/
def afterRot2 : KeriState :=
  match rotateKeysN "t1" [kpC, kpA] keriSt1 "did:keri:01" with
  | Except.ok s => s
  | Except.error _ => keriSt1

end Fixtures

open MockKeri Fixtures in
/-- Witness for C6: two rotations of the concrete state append exactly two
rotation events. -/
theorem c6_witness :
    rotateKeysN "t1" [kpC, kpA] keriSt1 "did:keri:01" = Except.ok afterRot2 ∧
    eventCount afterRot2 "did:keri:01" "rotation"
      = eventCount keriSt1 "did:keri:01" "rotation" + 2 := by
  obtain ⟨stN, hN, hc⟩ := (c6_rotation_chain "t1" keriSt1 "did:keri:01"
    ident1 kpInfo1 [kpC, kpA] rfl rfl rfl).1
  have h3 : (Except.ok stN : Except String KeriState) = Except.ok afterRot2 :=
    hN.symm.trans rfl
  cases h3
  exact ⟨hN, hc⟩

/-! ## Claim C4: erasure semantics and signing after erasure -/

namespace Fixtures

open MockKeri

/-- The identifier of `keriSt1` after erasure. -/
def identErased : Identifier :=
  { id := "did:keri:01", keyPairId := "key_1", status := "Erased"
    metadata := { erasureCompleted := true }, erasedAt := some "t1" }

/-- Result of rotating keys in the erased state `afterErase.2`. -/
def afterEraseRot : RotationResult × KeriState :=
  match rotateKeys kpC "t3" afterErase.2 "did:keri:01" with
  | Except.ok p => p
  | Except.error _ => (dummyRotRes, keriSt1)

end Fixtures

open MockKeri Fixtures in
/-- Counterexample to C4 as stated: on the concrete state `keriSt1`,
`implementErasure` succeeds, yet a subsequent `sign` call on the erased
identifier still returns a signature result instead of failing — `sign`
never inspects `identifier.status`. -/
theorem c4_counterexample :
    implementErasure "t1" keriSt1 "did:keri:01" = Except.ok afterErase ∧
    afterErase.1.success = true ∧
    mapGet afterErase.2.identifiers "did:keri:01" = some identErased ∧
    sign (fun s => s) "t2" afterErase.2 "did:keri:01" "data"
      = Except.ok afterEraseSign ∧
    afterEraseSign.1.signature = "sig_dataprivA" :=
  ⟨rfl, rfl, rfl, rfl, rfl⟩

open MockKeri in
/-- Claim C4 as amended: after a successful `implementErasure` the identifier
status is `Erased`, its personal metadata keys are stripped, and exactly one
`erasure` event is appended to its event log — but a subsequent `sign` call
still succeeds (the code performs no status check), returning a signature
computed from the current private key of the identifier. -/
theorem c4_amended_erasure (hash : String → String)
    (now now2 dataStr : String) (st : KeriState) (iid : String)
    (idf : Identifier) (kp : KeyPairInfo)
    (hinit : st.initialized = true)
    (hid : mapGet st.identifiers iid = some idf)
    (hkp : mapGet st.keyPairs idf.keyPairId = some kp)
    (eres : ErasureResult) (st1 : KeriState)
    (herase : implementErasure now st iid = Except.ok (eres, st1)) :
    mapGet st1.identifiers iid = some
      { idf with
        status := "Erased"
        erasedAt := some now
        metadata := { idf.metadata with
          personalData := none
          contactInfo := none
          erasureCompleted := true } } ∧
    (mapGet st1.eventLogs iid).getD []
      = (mapGet st.eventLogs iid).getD [] ++
        [{ type := "erasure", timestamp := now
           data := EventData.erasure "GDPR compliance" }] ∧
    eventCount st1 iid "erasure" = eventCount st iid "erasure" + 1 ∧
    sign hash now2 st1 iid dataStr = Except.ok
      ({ identifierId := iid, keyId := kp.id, timestamp := now2
         signature := "sig_" ++ hash (dataStr ++ kp.current.privateKey) },
       { st1 with
         eventLogs :=
           mapSet st1.eventLogs iid
             (((mapGet st1.eventLogs iid).getD []) ++
               [{ type := "signature", timestamp := now2
                  data := EventData.signature kp.id (hash dataStr) }]) }) := by
  simp only [implementErasure, hinit, Bool.not_true, Bool.false_eq_true,
    if_false, hid, Except.ok.injEq, Prod.mk.injEq] at herase
  obtain ⟨_, hst1⟩ := herase
  subst hst1
  refine ⟨?_, ?_, ?_, ?_⟩
  · simp [mapGet_mapSet_self]
  · simp [mapGet_mapSet_self]
  · exact eventCount_append st iid "erasure" _ _ rfl rfl
  · simp [sign, hinit, mapGet_mapSet_self, hkp]

open MockKeri Fixtures in
/-- Witness for the amended C4 at the concrete state: erased status, stripped
metadata, one appended erasure event, and a still-successful sign call. -/
theorem c4_amended_witness :
    mapGet afterErase.2.identifiers "did:keri:01" = some identErased ∧
    eventCount afterErase.2 "did:keri:01" "erasure"
      = eventCount keriSt1 "did:keri:01" "erasure" + 1 ∧
    sign (fun s => s) "t2" afterErase.2 "did:keri:01" "data"
      = Except.ok afterEraseSign := by
  have h := c4_amended_erasure (fun s => s) "t1" "t2" "data" keriSt1
    "did:keri:01" ident1 kpInfo1 rfl rfl rfl afterErase.1 afterErase.2 rfl
  exact ⟨h.1, h.2.2.1, h.2.2.2⟩

/-! ## Claim C5: rotateKeys error handling -/

open MockKeri Fixtures in
/-- Counterexample to C5 as stated: on the concrete erased state,
`rotateKeys` performs the rotation and succeeds instead of failing with an
invalid-state error — the code checks existence but never the status. -/
theorem c5_counterexample :
    mapGet afterErase.2.identifiers "did:keri:01" = some identErased ∧
    identErased.status = "Erased" ∧
    rotateKeys kpC "t3" afterErase.2 "did:keri:01" = Except.ok afterEraseRot ∧
    afterEraseRot.1.rotated = true :=
  ⟨rfl, rfl, rfl, rfl⟩

open MockKeri in
/-- Claim C5 as amended: `rotateKeys` on an unknown identifier fails with the
not-found error; but for any existing identifier whose key pair resolves, it
performs the rotation regardless of the status of the identifier. -/
theorem c5_amended_rotate (fresh : KeyPair) (now : String) (st : KeriState)
    (iid : String) (hinit : st.initialized = true) :
    (mapGet st.identifiers iid = none →
       rotateKeys fresh now st iid
         = Except.error ("Identifier " ++ iid ++ " not found")) ∧
    (∀ (idf : Identifier) (kp : KeyPairInfo),
       mapGet st.identifiers iid = some idf →
       mapGet st.keyPairs idf.keyPairId = some kp →
       rotateKeys fresh now st iid = Except.ok
         ({ identifierId := iid, rotated := true, timestamp := now
            currentPublicKey := kp.next.publicKey
            nextPublicKey := fresh.publicKey },
          { st with
            keyPairs := mapSet st.keyPairs idf.keyPairId
              { kp with
                previous := some kp.current
                current := kp.next
                next := fresh
                lastRotated := some now }
            eventLogs := mapSet st.eventLogs iid
              (((mapGet st.eventLogs iid).getD []) ++
               [{ type := "rotation", timestamp := now
                  data := EventData.rotation kp.current.publicKey
                    kp.next.publicKey fresh.publicKey }]) })) := by
  constructor
  · intro hnone
    simp [rotateKeys, hinit, hnone]
  · intro idf kp hid hkp
    exact rotateKeys_ok fresh now st iid idf kp hinit hid hkp

open MockKeri Fixtures in
/-- Witness for the amended C5: a missing identifier gives the not-found
error, and an Erased identifier still rotates. -/
theorem c5_amended_witness :
    rotateKeys kpC "t9" keriSt1 "did:keri:02"
      = Except.error ("Identifier " ++ "did:keri:02" ++ " not found") ∧
    rotateKeys kpC "t3" afterErase.2 "did:keri:01" = Except.ok afterEraseRot := by
  have h1 := (c5_amended_rotate kpC "t9" keriSt1 "did:keri:02" rfl).1 rfl
  have h2 := (c5_amended_rotate kpC "t3" afterErase.2 "did:keri:01" rfl).2
    identErased kpInfo1 rfl rfl
  exact ⟨h1, h2⟩

/-! ## Claim C2: duplicate record ids on the ledger -/

namespace Fixtures

open MockBlockchain

def rec1 : BVerificationRecord :=
  { recordId := "rec_1", fileId := "file_1", timestamp := "t1"
    validationStatus := "Valid", fileChecksum := "chk1"
    createdBy := "did:keri:01" }

/-- A second structurally valid record under the same `recordId`. -/
def rec2 : BVerificationRecord := { rec1 with fileChecksum := "chk2" }

def bSt0 : BlockchainState :=
  { initialized := true, records := [], transactions := [] }

def dummyStoreRes : StoreResult :=
  { success := false, txId := "", recordId := "", timestamp := ""
    blockHeight := 0 }

def afterStore1 : StoreResult × BlockchainState :=
  match storeVerificationRecord "tx_1" 5 "t1" bSt0 rec1 with
  | Except.ok p => p
  | Except.error _ => (dummyStoreRes, bSt0)

def afterStore2 : StoreResult × BlockchainState :=
  match storeVerificationRecord "tx_2" 6 "t2" afterStore1.2 rec2 with
  | Except.ok p => p
  | Except.error _ => (dummyStoreRes, bSt0)

end Fixtures

open MockBlockchain Fixtures in
/-- Claim C2, evaluated at its failing input: storing a second structurally
valid record under the already-used `recordId` `rec_1` succeeds instead of
being rejected with a duplicate-record error, and silently overwrites the
originally stored record. -/
theorem c2_duplicate_store_not_rejected :
    storeVerificationRecord "tx_1" 5 "t1" bSt0 rec1 = Except.ok afterStore1 ∧
    mapGet afterStore1.2.records "rec_1" = some rec1 ∧
    storeVerificationRecord "tx_2" 6 "t2" afterStore1.2 rec2
      = Except.ok afterStore2 ∧
    afterStore2.1.success = true ∧
    mapGet afterStore2.2.records "rec_1" = some rec2 ∧
    rec2 ≠ rec1 :=
  ⟨rfl, rfl, rfl, rfl, rfl, by decide⟩

/-! ## Claim C9: confirmations are monotonically non-decreasing -/

open MockBlockchain in
/-- Evaluation of a successful `getTransactionStatus` call. -/
theorem getTransactionStatus_ok (draw : Nat) (st : BlockchainState)
    (txId : String) (t0 : BTransaction)
    (hinit : st.initialized = true)
    (htx : mapGet st.transactions txId = some t0) :
    getTransactionStatus draw st txId = Except.ok
      ({ t0 with confirmations := min (t0.confirmations + draw % 3) 12 },
       { st with
         transactions := mapSet st.transactions txId
           { t0 with confirmations := min (t0.confirmations + draw % 3) 12 } }) := by
  simp [getTransactionStatus, hinit, htx]

open MockBlockchain in
/-- One `getTransactionStatus` call: the returned transaction carries the
capped updated confirmation count, and the post state still resolves the
transaction id to it. -/
theorem getTransactionStatus_step (draw : Nat) (st : BlockchainState)
    (txId : String) (t0 t1 : BTransaction) (st1 : BlockchainState)
    (hinit : st.initialized = true)
    (htx : mapGet st.transactions txId = some t0)
    (h : getTransactionStatus draw st txId = Except.ok (t1, st1)) :
    t1.confirmations = min (t0.confirmations + draw % 3) 12 ∧
    st1.initialized = true ∧
    mapGet st1.transactions txId = some t1 := by
  rw [getTransactionStatus_ok draw st txId t0 hinit htx] at h
  simp only [Except.ok.injEq, Prod.mk.injEq] at h
  obtain ⟨ht1, hst1⟩ := h
  subst ht1
  subst hst1
  exact ⟨rfl, hinit, mapGet_mapSet_self _ _ _⟩

open MockBlockchain in
/-- Claim C9: across two successive `getTransactionStatus` calls for a stored
transaction (whose confirmation count is within the 12 cap, as every
transaction the code creates starts at 1), the returned confirmation counts
are non-decreasing and stay within the cap. -/
theorem c9_confirmations_monotone (st : BlockchainState) (txId : String)
    (t0 t1 t2 : BTransaction) (st1 st2 : BlockchainState) (d1 d2 : Nat)
    (hinit : st.initialized = true)
    (htx : mapGet st.transactions txId = some t0)
    (hb : t0.confirmations ≤ 12)
    (h1 : getTransactionStatus d1 st txId = Except.ok (t1, st1))
    (h2 : getTransactionStatus d2 st1 txId = Except.ok (t2, st2)) :
    t0.confirmations ≤ t1.confirmations ∧
    t1.confirmations ≤ t2.confirmations ∧
    t2.confirmations ≤ 12 := by
  obtain ⟨hc1, hinit1, htx1⟩ :=
    getTransactionStatus_step d1 st txId t0 t1 st1 hinit htx h1
  obtain ⟨hc2, _, _⟩ :=
    getTransactionStatus_step d2 st1 txId t1 t2 st2 hinit1 htx1 h2
  have h12 : t1.confirmations ≤ 12 := hc1 ▸ min_le_right _ _
  refine ⟨?_, ?_, ?_⟩
  · rw [hc1]
    exact le_min (Nat.le_add_right _ _) hb
  · rw [hc2]
    exact le_min (Nat.le_add_right _ _) h12
  · exact hc2 ▸ min_le_right _ _

open MockBlockchain in
/-- Every transaction `storeVerificationRecord` creates starts with exactly
one confirmation, so the cap hypothesis of the monotonicity theorem holds for
all transactions the ledger creates. -/
theorem storeVerificationRecord_confirmations (txId : String)
    (blockHeight : Nat) (now : String) (st : BlockchainState)
    (r : BVerificationRecord) (res : StoreResult) (st1 : BlockchainState)
    (h : storeVerificationRecord txId blockHeight now st r
      = Except.ok (res, st1)) :
    ∃ t, mapGet st1.transactions txId = some t ∧ t.confirmations = 1 := by
  by_cases hinit : st.initialized
  · by_cases hval : r.isValid
    · simp only [storeVerificationRecord, hinit, hval, Bool.not_true,
        Bool.false_eq_true, if_false, if_true, Except.ok.injEq,
        Prod.mk.injEq] at h
      obtain ⟨_, hst1⟩ := h
      subst hst1
      exact ⟨_, mapGet_mapSet_self _ _ _, rfl⟩
    · simp [storeVerificationRecord, hinit, hval] at h
  · simp [storeVerificationRecord, hinit] at h

namespace Fixtures

open MockBlockchain

def bTx1 : BTransaction :=
  { txId := "tx_1", type := "StoreVerificationRecord"
    recordId := some "rec_1", timestamp := "t1", status := "Confirmed"
    blockHeight := 5, confirmations := 1 }

def bSt1 : BlockchainState :=
  { initialized := true, records := [], transactions := [("tx_1", bTx1)] }

def dummyTx : BTransaction :=
  { txId := "", type := "", recordId := none, timestamp := "", status := ""
    blockHeight := 0, confirmations := 0 }

def afterStatus1 : BTransaction × BlockchainState :=
  match getTransactionStatus 1 bSt1 "tx_1" with
  | Except.ok p => p
  | Except.error _ => (dummyTx, bSt1)

def afterStatus2 : BTransaction × BlockchainState :=
  match getTransactionStatus 2 afterStatus1.2 "tx_1" with
  | Except.ok p => p
  | Except.error _ => (dummyTx, bSt1)

end Fixtures

open MockBlockchain Fixtures in
/-- Witness for C9 at a concrete ledger state with two polling calls. -/
theorem c9_witness :
    afterStatus1.1.confirmations ≤ afterStatus2.1.confirmations ∧
    afterStatus2.1.confirmations ≤ 12 := by
  have h := c9_confirmations_monotone bSt1 "tx_1" bTx1 afterStatus1.1
    afterStatus2.1 afterStatus1.2 afterStatus2.2 1 2 rfl rfl (by decide)
    rfl rfl
  exact ⟨h.2.1, h.2.2⟩

/-! ## Claims C3 and C8: verifyFile orchestration -/

open VerificationEngine in
/-- Evaluation of `verifyFile` when validation reports `isValid = false`: the
file is saved with status `error` and no ledger submission is attempted. -/
theorem verifyFile_eval_invalid (now : String) (fm : VFileMetadata)
    (m : VMapping) (rules : List VRule) (draws : Nat → ℚ)
    (createRecord : Except String CreatedRecord) (cbr : Bool)
    (hst : fm.status = "mapped") (hm : fm.mapping = some m)
    (hval : (validateFile now m.columnMappings rules draws).isValid = false) :
    verifyFile true now (some fm) rules draws createRecord cbr =
      { result := Except.ok true
        file := some { fm with
          validationResults := some (validateFile now m.columnMappings rules draws)
          status := "error" }
        ledgerCalls := 0 } := by
  simp [verifyFile, hst, hm, hval]

open VerificationEngine in
/-- Evaluation of `verifyFile` when validation succeeds and the
sign-and-submit step throws: the error propagates and the file keeps the
previously saved `validated` status. -/
theorem verifyFile_eval_ledger_error (now : String) (fm : VFileMetadata)
    (m : VMapping) (rules : List VRule) (draws : Nat → ℚ) (cbr : Bool)
    (e : String)
    (hst : fm.status = "mapped") (hm : fm.mapping = some m)
    (hval : (validateFile now m.columnMappings rules draws).isValid = true)
    (hcbr : cbr = true) :
    verifyFile true now (some fm) rules draws (Except.error e) cbr =
      { result := Except.error e
        file := some { fm with
          validationResults := some (validateFile now m.columnMappings rules draws)
          status := "validated" }
        ledgerCalls := 1 } := by
  simp [verifyFile, hst, hm, hval, hcbr]

open VerificationEngine in
/-- Evaluation of `verifyFile` on the success path: validation succeeded, a
ledger record was requested and created, and the file is saved as
`verified` with the record and transaction ids. -/
theorem verifyFile_eval_verified (now : String) (fm : VFileMetadata)
    (m : VMapping) (rules : List VRule) (draws : Nat → ℚ) (cbr : Bool)
    (cr : CreatedRecord)
    (hst : fm.status = "mapped") (hm : fm.mapping = some m)
    (hval : (validateFile now m.columnMappings rules draws).isValid = true)
    (hcbr : cbr = true) :
    verifyFile true now (some fm) rules draws (Except.ok cr) cbr =
      { result := Except.ok true
        file := some { fm with
          validationResults := some (validateFile now m.columnMappings rules draws)
          status := "verified"
          verificationRecordId := some cr.recordId
          blockchainTxId := some cr.txId }
        ledgerCalls := 1 } := by
  simp [verifyFile, hst, hm, hval, hcbr]

open VerificationEngine in
/-- Evaluation of `verifyFile` when validation succeeds but no ledger record
is requested: the file stays `validated` and the ledger is not touched. -/
theorem verifyFile_eval_no_record (now : String) (fm : VFileMetadata)
    (m : VMapping) (rules : List VRule) (draws : Nat → ℚ)
    (createRecord : Except String CreatedRecord) (cbr : Bool)
    (hst : fm.status = "mapped") (hm : fm.mapping = some m)
    (hval : (validateFile now m.columnMappings rules draws).isValid = true)
    (hcbr : cbr = false) :
    verifyFile true now (some fm) rules draws createRecord cbr =
      { result := Except.ok true
        file := some { fm with
          validationResults := some (validateFile now m.columnMappings rules draws)
          status := "validated" }
        ledgerCalls := 0 } := by
  simp [verifyFile, hst, hm, hval, hcbr]

open VerificationEngine in
/-- Claim C3: for a mapped file with a mapping, (a) the file ends in status
`verified` only if validation succeeded and the sign-and-submit step
returned successfully; (b) if validation reports `isValid = false` the file
transitions to `error` and no ledger submission is attempted; (c) if the
sign-and-submit step throws, the whole call fails with that error and the
file is left `validated`, never `verified`. -/
theorem c3_verified_only_on_success (now : String) (fm : VFileMetadata)
    (m : VMapping) (rules : List VRule) (draws : Nat → ℚ)
    (createRecord : Except String CreatedRecord) (cbr : Bool)
    (hst : fm.status = "mapped") (hm : fm.mapping = some m) :
    (∀ f1, (verifyFile true now (some fm) rules draws createRecord cbr).file
        = some f1 → f1.status = "verified" →
      (validateFile now m.columnMappings rules draws).isValid = true ∧
      ∃ cr, createRecord = Except.ok cr) ∧
    ((validateFile now m.columnMappings rules draws).isValid = false →
      (∃ f1, (verifyFile true now (some fm) rules draws createRecord cbr).file
          = some f1 ∧ f1.status = "error") ∧
      (verifyFile true now (some fm) rules draws createRecord cbr).ledgerCalls
        = 0) ∧
    (∀ e, createRecord = Except.error e →
      (validateFile now m.columnMappings rules draws).isValid = true →
      cbr = true →
      (verifyFile true now (some fm) rules draws createRecord cbr).result
        = Except.error e ∧
      ∃ f1, (verifyFile true now (some fm) rules draws createRecord cbr).file
          = some f1 ∧ f1.status = "validated") := by
  refine ⟨?_, ?_, ?_⟩
  · intro f1 hf1 hstatus
    by_cases hval : (validateFile now m.columnMappings rules draws).isValid = true
    · cases hcbr : cbr with
      | false =>
          rw [verifyFile_eval_no_record now fm m rules draws createRecord cbr
            hst hm hval hcbr] at hf1
          simp only [Option.some.injEq] at hf1
          subst hf1
          simp at hstatus
      | true =>
          cases hcr : createRecord with
          | error e =>
              subst hcr
              rw [verifyFile_eval_ledger_error now fm m rules draws cbr e
                hst hm hval hcbr] at hf1
              simp only [Option.some.injEq] at hf1
              subst hf1
              simp at hstatus
          | ok cr =>
              exact ⟨hval, cr, rfl⟩
    · have hvalf : (validateFile now m.columnMappings rules draws).isValid
          = false := by simpa using hval
      rw [verifyFile_eval_invalid now fm m rules draws createRecord cbr hst hm
        hvalf] at hf1
      simp only [Option.some.injEq] at hf1
      subst hf1
      simp at hstatus
  · intro hval
    rw [verifyFile_eval_invalid now fm m rules draws createRecord cbr hst hm hval]
    exact ⟨⟨_, rfl, rfl⟩, rfl⟩
  · intro e hcr hval hcbr
    subst hcr
    rw [verifyFile_eval_ledger_error now fm m rules draws cbr e hst hm hval hcbr]
    exact ⟨rfl, _, rfl, rfl⟩

namespace Fixtures

open VerificationEngine

def wMapping : VMapping :=
  { schemaId := "EmissionData", columnMappings := [("emissionId", "id")] }

def wFileMapped : VFileMetadata :=
  { fileId := "file_1", status := "mapped", mapping := some wMapping }

/-- An error-severity range rule whose simulated draw of 0 produces a Fail. -/
def wRuleRange : VRule :=
  { id := "r1", ruleType := "range", targetField := "emissionValue"
    severity := "error" }

end Fixtures

open VerificationEngine Fixtures in
/-- Witness for C3: with a failing ledger the call returns the ledger error,
and with a failing error-severity rule no ledger call is made. -/
theorem c3_witness :
    (verifyFile true "t1" (some wFileMapped) [] (fun _ => 0)
      (Except.error "ledger down") true).result
        = Except.error "ledger down" ∧
    (verifyFile true "t1" (some wFileMapped) [wRuleRange] (fun _ => 0)
      (Except.ok { recordId := "rec_1", txId := "tx_1" }) true).ledgerCalls
        = 0 := by
  have h1 := (c3_verified_only_on_success "t1" wFileMapped wMapping []
    (fun _ => 0) (Except.error "ledger down") true rfl rfl).2.2
    "ledger down" rfl rfl rfl
  have h2 := (c3_verified_only_on_success "t1" wFileMapped wMapping
    [wRuleRange] (fun _ => 0) (Except.ok { recordId := "rec_1", txId := "tx_1" })
    true rfl rfl).2.1 rfl
  exact ⟨h1.1, h2.2⟩

open VerificationEngine in
/-- Claim C8: a file whose status is not `mapped` makes `verifyFile` fail
with the invalid-file-state error, performing no validation, no ledger call
and no change to the file. -/
theorem c8_requires_mapped_status (now : String) (fm : VFileMetadata)
    (rules : List VRule) (draws : Nat → ℚ)
    (createRecord : Except String CreatedRecord) (cbr : Bool)
    (hst : fm.status ≠ "mapped") :
    (verifyFile true now (some fm) rules draws createRecord cbr).result
      = Except.error
          ("File must be in mapped status to verify. Current status: "
            ++ fm.status) ∧
    (verifyFile true now (some fm) rules draws createRecord cbr).file
      = some fm ∧
    (verifyFile true now (some fm) rules draws createRecord cbr).ledgerCalls
      = 0 := by
  have hb : (fm.status == "mapped") = false := beq_eq_false_iff_ne.mpr hst
  refine ⟨?_, ?_, ?_⟩ <;> simp [verifyFile, hb]

namespace Fixtures

open VerificationEngine

def wFileUploaded : VFileMetadata := { fileId := "file_1", status := "uploaded" }

end Fixtures

open VerificationEngine Fixtures in
/-- Witness for C8 on a file still in `uploaded` status. -/
theorem c8_witness :
    (verifyFile true "t1" (some wFileUploaded) [] (fun _ => 0)
      (Except.error "x") true).result
        = Except.error
            ("File must be in mapped status to verify. Current status: "
              ++ "uploaded") ∧
    (verifyFile true "t1" (some wFileUploaded) [] (fun _ => 0)
      (Except.error "x") true).file = some wFileUploaded ∧
    (verifyFile true "t1" (some wFileUploaded) [] (fun _ => 0)
      (Except.error "x") true).ledgerCalls = 0 := by
  exact c8_requires_mapped_status "t1" wFileUploaded [] (fun _ => 0)
    (Except.error "x") true (by decide)

/-! ## Claim C7: deterministic required/range value checks -/

open ValidationService in
/-- Counterexample to C7 as stated: the single space is a non-empty string,
yet the required check fails on it — `_validateRequired` trims before testing
emptiness, so whitespace-only strings fail. -/
theorem c7_counterexample :
    (" " : String) ≠ "" ∧ validateRequired (JsValue.vStr " ") = false :=
  ⟨by decide, by decide⟩

open ValidationService in
/-- Claim C7 as amended: the required check fails on the empty string (and
more generally on every string that trims to empty) and passes on every
string containing non-whitespace; the range check with inclusive bounds
[0, 100] fails on 150 and passes on 50. The embedded checks are pure
functions of the value and the rule parameters, hence deterministic. -/
theorem c7_amended_rules :
    validateRequired (JsValue.vStr "") = false ∧
    validateRange (JsValue.vNum 150) (some 0) (some 100) = false ∧
    validateRange (JsValue.vNum 50) (some 0) (some 100) = true ∧
    (∀ s : String, jsTrim s ≠ "" → validateRequired (JsValue.vStr s) = true) ∧
    (∀ s : String, jsTrim s = "" → validateRequired (JsValue.vStr s) = false) := by
  refine ⟨by decide, by decide, by decide, ?_, ?_⟩
  · intro s h
    have hb : (jsTrim s == "") = false := beq_eq_false_iff_ne.mpr h
    simp [validateRequired, hb]
  · intro s h
    simp [validateRequired, h]

open ValidationService in
/-- Witness for the amended C7 on the non-blank string `x`. -/
theorem c7_witness :
    jsTrim "x" ≠ "" ∧ validateRequired (JsValue.vStr "x") = true :=
  ⟨by decide, c7_amended_rules.2.2.2.1 "x" (by decide)⟩

end DVE
